import Mathlib

/-!
Verification development for the NBA shot-zone geometry simulator.

The repository has two source files, `app.py` (Streamlit UI) and
`backend.py` (Flask API).  Each contains its own copy of the geometry
engine `simulate_new_zones`; the two copies use different corner-zone
tests.  We embed both, together with the points valuation, the zone
aggregation, the ranking, the delta-vs-baseline logic and the
efficiency color mapper from `app.py`.

Numbers are embedded as exact rationals.  The only non-rational
operation in the source is `np.arctan2(y, x) * 180 / np.pi` (a call
into numpy, external to this repository); it is modelled as an explicit
function parameter `angle_deg : ℚ → ℚ → ℚ`, and every theorem below is
proved for an arbitrary such function, so no result depends on the
actual value of the angle.
-/

/-- One row of the shot table: `SHOT_DISTANCE` (feet or decifeet,
disambiguated by magnitude), `LOC_X`/`LOC_Y` (decifeet, origin at the
basket) and `SHOT_MADE_FLAG` (0 or 1). -/
structure Row where
  SHOT_DISTANCE : ℚ
  LOC_X : ℚ
  LOC_Y : ℚ
  SHOT_MADE_FLAG : ℤ
deriving DecidableEq, Repr

/-- Distance normalization shared by both copies of the engine
(`app.py` line 13, `backend.py` line 29):
`dist = row.SHOT_DISTANCE / 10 if row.SHOT_DISTANCE > 100 else row.SHOT_DISTANCE`. -/
def norm_dist (row : Row) : ℚ :=
  if row.SHOT_DISTANCE > 100 then row.SHOT_DISTANCE / 10 else row.SHOT_DISTANCE

/-- Stand-in for the numpy angle routine, used only to instantiate
theorems that hold for every `angle_deg` at a concrete function. -/
def atan2_deg_default : ℚ → ℚ → ℚ := fun _ _ => 0

/-- Geometry engine of `app.py` (lines 12-33).  The corner test compares
the normalized polar distance with `new_arc_dist - 1.75`. -/
def App.simulate_new_zones (angle_deg : ℚ → ℚ → ℚ) (row : Row)
    (new_arc_dist : ℚ) : String :=
  let dist := norm_dist row
  let x := row.LOC_X
  let y := row.LOC_Y
  if dist < 8 then "Paint"
  else if dist < 16 then "Short Mid-Range"
  else
    let new_corner_dist := new_arc_dist - 1.75
    if (y < 92.5 ∧ dist ≥ new_corner_dist) ∨ (¬ y < 92.5 ∧ dist ≥ new_arc_dist) then
      if y < 92.5 then "Corner 3 (Sim)"
      else
        let angle := angle_deg y x
        if (22 < angle ∧ angle < 70) ∨ (110 < angle ∧ angle < 158) then
          "Wing 3 (Sim)"
        else "Top of Key 3 (Sim)"
    else "Long Mid-Range (Sim)"

/-- Geometry engine of `backend.py` (lines 27-54).  The corner test
compares `|LOC_X|` with `(new_arc_dist - 1.75) * 10` and additionally
requires `|LOC_X| ≤ 250`; a corner-area shot failing that test falls
through to Long Mid-Range even when its distance exceeds the arc. -/
def Backend.simulate_new_zones (angle_deg : ℚ → ℚ → ℚ) (row : Row)
    (new_arc_dist : ℚ) : String :=
  let dist := norm_dist row
  let x := row.LOC_X
  let y := row.LOC_Y
  let x_abs := |x|
  if dist < 8 then "Paint"
  else if dist < 16 then "Short Mid-Range"
  else
    let new_corner_dist := new_arc_dist - 1.75
    if y < 92.5 then
      if x_abs ≥ new_corner_dist * 10 ∧ x_abs ≤ 250 then "Corner 3 (Sim)"
      else "Long Mid-Range (Sim)"
    else
      if dist ≥ new_arc_dist then
        let angle := angle_deg y x
        if (22 < angle ∧ angle < 70) ∨ (110 < angle ∧ angle < 158) then
          "Wing 3 (Sim)"
        else "Top of Key 3 (Sim)"
      else "Long Mid-Range (Sim)"

/-- Fixed fallback display order of the six zones (`app.py` lines 44-51). -/
def ZONE_ORDER : List String :=
  ["Paint", "Short Mid-Range", "Long Mid-Range (Sim)", "Wing 3 (Sim)",
   "Corner 3 (Sim)", "Top of Key 3 (Sim)"]

/-- Points valuation factor (`app.py` lines 203/211, `backend.py` lines
71-73): `3 if "3 (Sim)" in zone else 2`.  Python substring membership is
embedded as list-infix on the character lists. -/
def sim_pts_of_zone (zone : String) : ℤ :=
  if "3 (Sim)".toList <:+: zone.toList then 3 else 2

/-- Simulated points of one row: `SIM_PTS = (3 or 2) * SHOT_MADE_FLAG`,
with the zone taken from the `app.py` engine (`app.py` line 211). -/
def SIM_PTS (angle_deg : ℚ → ℚ → ℚ) (row : Row) (dist : ℚ) : ℤ :=
  sim_pts_of_zone (App.simulate_new_zones angle_deg row dist) * row.SHOT_MADE_FLAG

/-- Zone labels of all rows, in row order (`df.apply(simulate_new_zones, ...)`). -/
def sim_zones (angle_deg : ℚ → ℚ → ℚ) (rows : List Row) (dist : ℚ) : List String :=
  rows.map (fun r => App.simulate_new_zones angle_deg r dist)

/-- Aggregation `df.groupby("SIM_ZONE")["SIM_PTS"].mean().to_dict()`
(`app.py` line 212), embedded as an association list keyed by the zones
present in the data: each present zone maps to the mean of `SIM_PTS`
over its rows.  A zone with no rows is absent from the list. -/
def zone_stats (angle_deg : ℚ → ℚ → ℚ) (rows : List Row) (dist : ℚ) :
    List (String × ℚ) :=
  (sim_zones angle_deg rows dist).dedup.map (fun z =>
    let group := rows.filter (fun r => App.simulate_new_zones angle_deg r dist = z)
    (z, ((group.map (fun r => (SIM_PTS angle_deg r dist : ℚ))).sum / group.length)))

/-- Aggregation `(counts / counts.sum() * 100).to_dict()` (`app.py`
lines 213-214): volume share per present zone, as a percentage. -/
def shot_pct (angle_deg : ℚ → ℚ → ℚ) (rows : List Row) (dist : ℚ) :
    List (String × ℚ) :=
  let zs := sim_zones angle_deg rows dist
  zs.dedup.map (fun z => (z, (zs.count z : ℚ) / zs.length * 100))

/-- Lookup in the `zone_stats` dict, `zone_stats.get(z)` (`app.py`
lines 247, 251, 255): `none` when the zone is absent. -/
def stats_get (stats : List (String × ℚ)) (z : String) : Option ℚ :=
  (stats.find? (fun p => p.1 = z)).map Prod.snd

/-- Sort key `lambda z: zone_stats[z]` (`app.py` line 248).  The Python
key is only ever applied to zones present in the dict; the `getD 0`
default is an embedding artifact never reached on those zones. -/
def stats_val (stats : String → Option ℚ) (z : String) : ℚ :=
  (stats z).getD 0

/-- Ranked display list (`app.py` lines 246-250): the zones of
`ZONE_ORDER` that have data, sorted by mean points per attempt
descending.  Python `sorted(..., reverse=True)` is embedded as a stable
insertion sort under the reversed comparison. -/
def ranked (stats : String → Option ℚ) : List String :=
  List.insertionSort (fun a b => stats_val stats b ≤ stats_val stats a)
    (ZONE_ORDER.filter (fun z => (stats z).isSome))

/-- Zones without data (`app.py` line 251), kept in `ZONE_ORDER` order. -/
def missing (stats : String → Option ℚ) : List String :=
  ZONE_ORDER.filter (fun z => (stats z).isNone)

/-- Display order `ranked + missing` (`app.py` line 253). -/
def display_order (stats : String → Option ℚ) : List String :=
  ranked stats ++ missing stats

/-- Clamped normalization of the color mapper (`app.py` line 38):
`max(0.0, min(1.0, (pps - vmin) / (vmax - vmin)))`. -/
def clamped (pps vmin vmax : ℚ) : ℚ :=
  max 0 (min 1 ((pps - vmin) / (vmax - vmin)))

/-- Hue of the color mapper (`app.py` line 39): `int(clamped * 120)`.
Python `int()` truncates toward zero; `clamped` is nonnegative, so the
truncation is the floor. -/
def hue (pps vmin vmax : ℚ) : ℤ :=
  ⌊clamped pps vmin vmax * 120⌋

/-- Color mapper `pps_to_hsl` (`app.py` lines 37-40) with its default
range `vmin = 0.6`, `vmax = 1.2`. -/
def pps_to_hsl (pps : ℚ) (vmin : ℚ := 0.6) (vmax : ℚ := 1.2) : String :=
  "hsl(" ++ toString (hue pps vmin vmax) ++ ", 75%, 42%)"

/-- Fixed-zone set of the delta logic (`app.py` line 271):
`zone in set(Paint, Short Mid-Range)`. -/
def fixed_zone (zone : String) : Bool :=
  zone = "Paint" || zone = "Short Mid-Range"

/-- Delta against baseline for a zone whose current `pps` is present
(`app.py` line 272):
`delta = (pps - base if base is not None else None) if not fixed_zone else None`. -/
def delta (zone : String) (pps : ℚ) (base : Option ℚ) : Option ℚ :=
  if fixed_zone zone then none
  else
    match base with
    | some b => some (pps - b)
    | none => none

/-- Delta shown on a zone card (`app.py` lines 255-281): when the
current `pps` is absent the card is the N/A card and shows no delta;
otherwise the delta of line 272. -/
def card_delta (zone : String) (pps base : Option ℚ) : Option ℚ :=
  match pps with
  | none => none
  | some p => delta zone p base

/-- C1 (counterexample): the claim is false for the distance-based
classifier of `app.py`.  The record with `SHOT_DISTANCE = 26`,
`LOC_X = 250`, `LOC_Y = 0` satisfies `|LOC_X| ≤ 250`, yet at
`arc_distance_ft = 27 > 26.75` the `app.py` classifier returns
Corner 3: the corner branch tests the normalized distance (26 ≥ 25.25),
not `LOC_X`. -/
theorem app_corner3_above_2675_counterexample :
    |(⟨26, 250, 0, 1⟩ : Row).LOC_X| ≤ 250 ∧ (26.75 : ℚ) < 27 ∧
    App.simulate_new_zones atan2_deg_default ⟨26, 250, 0, 1⟩ 27
      = "Corner 3 (Sim)" := by
  refine ⟨by norm_num, by norm_num, ?_⟩
  norm_num [App.simulate_new_zones, norm_dist]

/-- C1 (amended): for the `backend.py` classifier, whose corner test is
`|LOC_X| ≥ (arc - 1.75) * 10` together with `|LOC_X| ≤ 250`, no record
with `|LOC_X| ≤ 250` classifies as Corner 3 once `arc_distance_ft`
exceeds 26.75: the cutoff `(arc - 1.75) * 10` then exceeds 250. -/
theorem backend_corner3_empty_above_2675 (angle_deg : ℚ → ℚ → ℚ)
    (row : Row) (d : ℚ) (hx : |row.LOC_X| ≤ 250) (hd : 26.75 < d) :
    Backend.simulate_new_zones angle_deg row d ≠ "Corner 3 (Sim)" := by
  simp only [Backend.simulate_new_zones]
  split_ifs with h1 h2 h3 h4 h5 h6 <;> try decide
  exact absurd h4.1 (by push_neg; linarith [h4.2])

/-- C1 (witness for the amended theorem): at the record with
`LOC_X = 0` and `arc_distance_ft = 27` the backend classifier does not
return Corner 3. -/
theorem backend_corner3_empty_above_2675_witness :
    |(⟨24, 0, 10, 1⟩ : Row).LOC_X| ≤ 250 ∧ (26.75 : ℚ) < 27 ∧
    Backend.simulate_new_zones atan2_deg_default ⟨24, 0, 10, 1⟩ 27
      ≠ "Corner 3 (Sim)" :=
  ⟨by norm_num, by norm_num,
   backend_corner3_empty_above_2675 atan2_deg_default ⟨24, 0, 10, 1⟩ 27
     (by norm_num) (by norm_num)⟩

/-- C2: the two corner tests are not equivalent.  At the record with
`SHOT_DISTANCE = 24`, `LOC_X = 0`, `LOC_Y = 10` and
`arc_distance_ft = 23.75`, the `app.py` version (distance 24 ≥ corner
cutoff 22) returns Corner 3 while the `backend.py` version
(`|LOC_X| = 0 < 220`) returns Long Mid-Range. -/
theorem corner_tests_not_equivalent :
    App.simulate_new_zones atan2_deg_default ⟨24, 0, 10, 1⟩ 23.75
      = "Corner 3 (Sim)" ∧
    Backend.simulate_new_zones atan2_deg_default ⟨24, 0, 10, 1⟩ 23.75
      = "Long Mid-Range (Sim)" ∧
    App.simulate_new_zones atan2_deg_default ⟨24, 0, 10, 1⟩ 23.75
      ≠ Backend.simulate_new_zones atan2_deg_default ⟨24, 0, 10, 1⟩ 23.75 := by
  have h1 : App.simulate_new_zones atan2_deg_default ⟨24, 0, 10, 1⟩ 23.75
      = "Corner 3 (Sim)" := by
    norm_num [App.simulate_new_zones, norm_dist]
  have h2 : Backend.simulate_new_zones atan2_deg_default ⟨24, 0, 10, 1⟩ 23.75
      = "Long Mid-Range (Sim)" := by
    norm_num [Backend.simulate_new_zones, norm_dist]
  refine ⟨h1, h2, ?_⟩
  rw [h1, h2]
  decide

/-- C3: for every `arc_distance_ft` in [22, 32] and every record, a
normalized distance below 8 ft classifies as Paint and a normalized
distance in [8, 16) classifies as Short Mid-Range, in both copies of
the engine; neither result depends on `arc_distance_ft`. -/
theorem fixed_zones_independent_of_arc (angle_deg : ℚ → ℚ → ℚ)
    (row : Row) (d : ℚ) (h22 : 22 ≤ d) (h32 : d ≤ 32) :
    (norm_dist row < 8 →
      App.simulate_new_zones angle_deg row d = "Paint" ∧
      Backend.simulate_new_zones angle_deg row d = "Paint") ∧
    (8 ≤ norm_dist row → norm_dist row < 16 →
      App.simulate_new_zones angle_deg row d = "Short Mid-Range" ∧
      Backend.simulate_new_zones angle_deg row d = "Short Mid-Range") := by
  constructor
  · intro h
    constructor <;>
      simp [App.simulate_new_zones, Backend.simulate_new_zones, h]
  · intro h8 h16
    have h : ¬ norm_dist row < 8 := not_lt.2 h8
    constructor <;>
      simp [App.simulate_new_zones, Backend.simulate_new_zones, h, h16]

/-- C3 (witness): at the record with `SHOT_DISTANCE = 5` and
`arc_distance_ft = 23.75` both engines return Paint. -/
theorem fixed_zones_independent_of_arc_witness :
    (22 ≤ (23.75 : ℚ) ∧ (23.75 : ℚ) ≤ 32 ∧ norm_dist ⟨5, 0, 0, 1⟩ < 8) ∧
    App.simulate_new_zones atan2_deg_default ⟨5, 0, 0, 1⟩ 23.75 = "Paint" ∧
    Backend.simulate_new_zones atan2_deg_default ⟨5, 0, 0, 1⟩ 23.75 = "Paint" :=
  ⟨⟨by norm_num, by norm_num, by norm_num [norm_dist]⟩,
   (fixed_zones_independent_of_arc atan2_deg_default ⟨5, 0, 0, 1⟩ 23.75
     (by norm_num) (by norm_num)).1 (by norm_num [norm_dist])⟩

/-- C4: a record with normalized distance 24 ft and `LOC_Y = 10`
(corner area) classifies as Corner 3 at `arc_distance_ft = 23.75`
(corner cutoff 22, and 24 ≥ 22) and as Long Mid-Range at
`arc_distance_ft = 27` (corner cutoff 25.25, and 24 < 25.25), for every
`LOC_X` and made flag. -/
theorem scenario_b_c_corner_shift (angle_deg : ℚ → ℚ → ℚ) (x : ℚ) (m : ℤ) :
    App.simulate_new_zones angle_deg ⟨24, x, 10, m⟩ 23.75
      = "Corner 3 (Sim)" ∧
    App.simulate_new_zones angle_deg ⟨24, x, 10, m⟩ 27
      = "Long Mid-Range (Sim)" := by
  constructor <;> norm_num [App.simulate_new_zones, norm_dist]

/-- C5: the valuation `(3 if "3 (Sim)" in zone else 2) * made_flag`
yields 3 on the three-point zones (Wing 3, Corner 3, Top of Key 3) when
the shot is made, 2 on every other zone when made, and 0 whenever the
shot is missed, over all six zones of `ZONE_ORDER`. -/
theorem points_valuation :
    ∀ z ∈ ZONE_ORDER, ∀ made : Bool,
      sim_pts_of_zone z * (if made then 1 else 0)
        = if made then
            (if z = "Wing 3 (Sim)" ∨ z = "Corner 3 (Sim)" ∨
                z = "Top of Key 3 (Sim)" then 3 else 2)
          else 0 := by
  decide

/-- C5 (witness): Corner 3 is one of the six zones and a made corner
three is worth 3 points. -/
theorem points_valuation_witness :
    "Corner 3 (Sim)" ∈ ZONE_ORDER ∧
    sim_pts_of_zone "Corner 3 (Sim)" * (if true then 1 else 0)
      = if true then
          (if "Corner 3 (Sim)" = "Wing 3 (Sim)" ∨
              "Corner 3 (Sim)" = "Corner 3 (Sim)" ∨
              "Corner 3 (Sim)" = "Top of Key 3 (Sim)" then 3 else 2)
        else 0 :=
  ⟨by decide, points_valuation "Corner 3 (Sim)" (by decide) true⟩

/-- C6: aggregating an empty collection of shots yields empty mappings
(no zone keys) for both the per-zone means and the volume shares; both
functions are total, so no exception and no division by zero occurs. -/
theorem aggregate_empty (angle_deg : ℚ → ℚ → ℚ) (d : ℚ) :
    zone_stats angle_deg [] d = [] ∧ shot_pct angle_deg [] d = [] := by
  constructor <;> simp [zone_stats, shot_pct, sim_zones]

/-- C8: with `vmin = 0.6` and `vmax = 1.2` the hue of the color mapper
is monotone in `pps` (hue 0 is red, hue 120 is green), and the hue at
`pps = 0.6` is strictly below the hue at `pps = 1.2`. -/
theorem hue_monotone (p1 p2 : ℚ) (h : p1 ≤ p2) :
    hue p1 0.6 1.2 ≤ hue p2 0.6 1.2 ∧ hue 0.6 0.6 1.2 < hue 1.2 0.6 1.2 := by
  constructor
  · apply Int.floor_mono
    apply mul_le_mul_of_nonneg_right _ (by norm_num)
    unfold clamped
    gcongr
  · have e1 : clamped 0.6 0.6 1.2 = 0 := by
      norm_num [clamped, min_def, max_def]
    have e2 : clamped 1.2 0.6 1.2 = 1 := by
      norm_num [clamped, min_def, max_def]
    rw [hue, hue, e1, e2]
    norm_num

/-- C8 (witness): the hue at `pps = 0.7` is at most the hue at
`pps = 0.8`, and the hue at 0.6 is strictly below the hue at 1.2. -/
theorem hue_monotone_witness :
    (0.7 : ℚ) ≤ 0.8 ∧
    (hue 0.7 0.6 1.2 ≤ hue 0.8 0.6 1.2 ∧ hue 0.6 0.6 1.2 < hue 1.2 0.6 1.2) :=
  ⟨by norm_num, hue_monotone 0.7 0.8 (by norm_num)⟩

/-- C9: the delta shown on a zone card is computed (as current minus
baseline) exactly for non-fixed zones with both values present; for the
fixed zones (Paint, Short Mid-Range) no delta is shown, a missing
baseline or missing current value yields no computed delta, and the
non-fixed zones are exactly Long Mid-Range, Wing 3, Corner 3 and
Top of Key 3. -/
theorem delta_policy (z : String) (p b : ℚ) (bo po : Option ℚ) :
    (fixed_zone z = true → card_delta z po bo = none) ∧
    (fixed_zone z = false → card_delta z (some p) (some b) = some (p - b)) ∧
    (card_delta z (some p) none = none) ∧
    (card_delta z none bo = none) ∧
    ZONE_ORDER.filter (fun w => ! fixed_zone w)
      = ["Long Mid-Range (Sim)", "Wing 3 (Sim)", "Corner 3 (Sim)",
         "Top of Key 3 (Sim)"] := by
  refine ⟨?_, ?_, ?_, ?_, by decide⟩
  · intro h
    cases po <;> simp [card_delta, delta, h]
  · intro h
    simp [card_delta, delta, h]
  · simp [card_delta, delta, ite_self]
  · simp [card_delta]

/-- C9 (witness): Paint shows no delta, and Wing 3 with both values
present shows the computed difference. -/
theorem delta_policy_witness :
    (fixed_zone "Paint" = true ∧
      card_delta "Paint" none none = none) ∧
    (fixed_zone "Wing 3 (Sim)" = false ∧
      card_delta "Wing 3 (Sim)" (some 1) (some (1/2)) = some (1 - 1/2)) :=
  ⟨⟨by decide, (delta_policy "Paint" 0 0 none none).1 (by decide)⟩,
   ⟨by decide, (delta_policy "Wing 3 (Sim)" 1 (1/2) none none).2.1 (by decide)⟩⟩

/-- C7: in the displayed list every zone with data precedes every zone
without data (the list is `ranked ++ missing`), the zones with data are
sorted by mean points per attempt descending, and the zones without
data keep the fixed `ZONE_ORDER` fallback order (they form a sublist of
it). -/
theorem ranked_display_ordering (stats : String → Option ℚ) :
    (∀ z ∈ ranked stats, (stats z).isSome) ∧
    (∀ z ∈ missing stats, (stats z).isNone) ∧
    (ranked stats).Sorted (fun a b => stats_val stats b ≤ stats_val stats a) ∧
    (missing stats).Sublist ZONE_ORDER ∧
    display_order stats = ranked stats ++ missing stats := by
  refine ⟨?_, ?_, ?_, ?_, rfl⟩
  · intro z hz
    have hperm := List.perm_insertionSort
      (fun a b => stats_val stats b ≤ stats_val stats a)
      (ZONE_ORDER.filter (fun w => (stats w).isSome))
    have hz2 : z ∈ ZONE_ORDER.filter (fun w => (stats w).isSome) :=
      hperm.mem_iff.mp hz
    simpa using (List.mem_filter.mp hz2).2
  · intro z hz
    have hz2 : z ∈ ZONE_ORDER.filter (fun w => (stats w).isNone) := hz
    simpa using (List.mem_filter.mp hz2).2
  · have ht : IsTotal String (fun a b => stats_val stats b ≤ stats_val stats a) :=
      ⟨fun a b => le_total _ _⟩
    have htr : IsTrans String (fun a b => stats_val stats b ≤ stats_val stats a) :=
      ⟨fun _ _ _ hab hbc => le_trans hbc hab⟩
    exact List.sorted_insertionSort _ _
  · exact List.filter_sublist _

/-- Helper: a constant divisor and factor distribute over a list sum. -/
theorem sum_map_cast_div_mul (l : List String) (f : String → ℕ) (n : ℚ) :
    (l.map (fun z => (f z : ℚ) / n * 100)).sum
      = ((l.map f).sum : ℚ) / n * 100 := by
  induction l with
  | nil => simp
  | cons a t ih =>
    simp only [List.map_cons, List.sum_cons, ih]
    push_cast
    ring

/-- Helper: the volume shares computed from any nonempty label list sum
to exactly 100, because the per-label counts over the deduplicated
labels sum to the list length. -/
theorem shares_sum (zs : List String) (hne : zs ≠ []) :
    ((zs.dedup.map
        (fun z => (z, (zs.count z : ℚ) / zs.length * 100))).map Prod.snd).sum
      = 100 := by
  rw [List.map_map]
  have hfun : (Prod.snd ∘ fun z => (z, (zs.count z : ℚ) / zs.length * 100))
      = fun z => ((zs.count z : ℕ) : ℚ) / (zs.length : ℚ) * 100 := rfl
  rw [hfun, sum_map_cast_div_mul zs.dedup (fun z => zs.count z) (zs.length : ℚ),
    List.sum_map_count_dedup_eq_length]
  have hn : ((zs.length : ℕ) : ℚ) ≠ 0 :=
    Nat.cast_ne_zero.mpr (fun h0 => hne (List.length_eq_zero.mp h0))
  rw [div_self hn, one_mul]

/-- C10: for every nonempty collection of shots, the per-zone volume
shares produced by the aggregator sum to exactly 100 across the zones
present in the mapping. -/
theorem volume_shares_sum_100 (angle_deg : ℚ → ℚ → ℚ) (rows : List Row)
    (d : ℚ) (h : rows ≠ []) :
    ((shot_pct angle_deg rows d).map Prod.snd).sum = 100 := by
  have hne : sim_zones angle_deg rows d ≠ [] := by
    simpa [sim_zones, List.map_eq_nil_iff] using h
  exact shares_sum (sim_zones angle_deg rows d) hne

/-- C10 (witness): a single-shot dataset has volume shares summing
to 100. -/
theorem volume_shares_sum_100_witness :
    ([⟨5, 0, 0, 1⟩] : List Row) ≠ [] ∧
    ((shot_pct atan2_deg_default [⟨5, 0, 0, 1⟩] 23.75).map Prod.snd).sum
      = 100 :=
  ⟨by simp, volume_shares_sum_100 atan2_deg_default [⟨5, 0, 0, 1⟩] 23.75
    (by simp)⟩
